import Mathlib

/-!
Shallow embedding of the agent liveness and process-supervision subsystem
of the Multi-Agent Nexus setup script (scripts/setup.py): the PID-file
cleanup protocol of start_heartbeat, the heartbeat loop, the monitor
launch strategy selection of start_monitoring, and the top-level main
sequence. External command invocations (subprocess.run without check,
subprocess.Popen, os.kill) are modelled as recorded effects; the Python
exception discipline (try/except blocks) is modelled explicitly by which
continuations run in each outcome.
-/

namespace Nexus

/-- A file store: maps a path to the content of the file at that path,
or none when no such file exists. Models the PID marker files of the
working directory. -/
def FileStore : Type := String → Option String

/-- The working directory with no PID files at all. -/
def emptyStore : FileStore := fun _ => none

/-- Models os.remove: the file at the given path is gone afterwards. -/
def FileStore.remove (st : FileStore) (path : String) : FileStore :=
  fun q => if q = path then none else st q

/-- Path of the heartbeat PID marker file of an agent, from the line
heartbeat_pid_file = ".heartbeat_" + agent_id + ".pid" (an f-string in
the source) in start_heartbeat. -/
def heartbeatPidFile (agentId : String) : String :=
  ".heartbeat_" ++ agentId ++ ".pid"

/-- Whitespace characters removed by str.strip. -/
def isSpaceChar (c : Char) : Bool :=
  c = ' ' || c = '\t' || c = '\n' || c = '\r' || c = '\x0b' || c = '\x0c'

/-- Models str.strip: drop whitespace from both ends. -/
def stripChars (cs : List Char) : List Char :=
  ((cs.dropWhile isSpaceChar).reverse.dropWhile isSpaceChar).reverse

/-- Decimal digit test. -/
def isDigitChar (c : Char) : Bool :=
  '0' ≤ c && c ≤ '9'

/-- Value of a run of decimal digits, accumulated left to right; none as
soon as a non-digit appears. -/
def digitsToNat (acc : Nat) : List Char → Option Nat
  | [] => some acc
  | c :: cs =>
    if isDigitChar c then digitsToNat (acc * 10 + (c.toNat - 48)) cs
    else none

/-- A nonempty run of decimal digits, or none. -/
def decNumeral (cs : List Char) : Option Nat :=
  match cs with
  | [] => none
  | _ => digitsToNat 0 cs

/-- Models int(content.strip()) applied to the stored content: the PID
parses when the stripped content is an optionally signed nonempty run of
decimal digits; on anything else Python int raises ValueError, modelled
as none. -/
def parsePid (content : String) : Option Int :=
  match stripChars content.data with
  | '-' :: rest => (decNumeral rest).map (fun n => -(n : Int))
  | '+' :: rest => (decNumeral rest).map (fun n => (n : Int))
  | cs => (decNumeral cs).map (fun n => (n : Int))

/-- Outcome of the cleanup block at the top of start_heartbeat: the
resulting store, the PIDs to which SIGTERM delivery was attempted, and
whether an exception escaped to the caller. -/
structure CleanupResult where
  store : FileStore
  signaled : List Int
  raised : Bool

/-- The cleanup block of start_heartbeat, lines 311 to 321 of setup.py
(the operation the spec calls terminate_and_clear of the PidFileStore).
If the PID file exists the code opens it, parses int(f.read().strip()),
sends SIGTERM to that PID inside an inner try whose bare except swallows
any delivery failure, and then calls os.remove; the whole block sits in
an outer try whose bare except swallows everything else, so a parse
failure skips the os.remove and leaves the file in place. killOk pid
says whether signal delivery to pid succeeds; either way control reaches
os.remove in the parsable case. No branch raises into the caller. -/
def terminate_and_clear (killOk : Int → Bool) (agentId : String)
    (st : FileStore) : CleanupResult :=
  let path := heartbeatPidFile agentId
  match st path with
  | none => { store := st, signaled := [], raised := false }
  | some content =>
    match parsePid content with
    | some pid =>
      let _delivered := killOk pid
      { store := st.remove path, signaled := [pid], raised := false }
    | none =>
      { store := st, signaled := [], raised := false }

/-- Result of start_heartbeat: the store after cleanup, the signalled
PIDs, whether the daemon thread was started, and the return value. -/
structure StartResult where
  store : FileStore
  signaled : List Int
  threadStarted : Bool
  result : Bool

/-- start_heartbeat, lines 306 to 347 of setup.py: run the cleanup block
for the agent, then spawn the daemon heartbeat thread and return True.
The function never writes a new PID file: no store update follows the
cleanup. -/
def start_heartbeat (killOk : Int → Bool) (agentId : String)
    (st : FileStore) : StartResult :=
  let c := terminate_and_clear killOk agentId st
  { store := c.store, signaled := c.signaled, threadStarted := true,
    result := true }

/-- Number of heartbeat PID records present in the store for an agent:
one when the marker file of that agent exists, zero otherwise (the path
is a deterministic injective function of the agent id, so one path holds
the only possible record of that agent). -/
def recordCount (st : FileStore) (agentId : String) : Nat :=
  match st (heartbeatPidFile agentId) with
  | some _ => 1
  | none => 0

/-- The operating system families distinguished by get_os_info. -/
inductive OSType
  | windows
  | linux
  | macos
deriving DecidableEq

/-- Which launching tools shutil.which finds on this machine: screen,
tmux, and the Windows start command. -/
structure Tools where
  screen : Bool
  tmux : Bool
  startCmd : Bool
deriving DecidableEq

/-- The launch strategy the branch structure of start_monitoring picks:
a new Windows console window, a screen session, a tmux session, a bare
detached background process, or nothing at all (the Windows branch with
no window-spawning facility, which only prints a warning). -/
inductive LaunchStrategy
  | windowsConsole
  | multiplexerScreen
  | multiplexerTmux
  | detachedBackground
  | unstarted
deriving DecidableEq

/-- A named detached multiplexer session and the command it hosts.
For screen the command is the argv tail after the session name; for tmux
the status-lister command is a single shell word string, exactly as the
source passes it. -/
structure Session where
  name : String
  cmd : List String
deriving DecidableEq

/-- Everything observable that start_monitoring does: the strategy its
branch structure picked, whether the stale-watcher pkill was issued, the
multiplexer sessions created, the argv lists handed to subprocess.Popen,
whether the advisory NOTE about installing screen or tmux was printed,
whether the Windows warning about being unable to start monitoring was
printed, and the return value. -/
structure MonitorResult where
  strategy : LaunchStrategy
  pkillIssued : Bool
  sessions : List Session
  popens : List (List String)
  advisory : Bool
  warning : Bool
  result : Bool
deriving DecidableEq

/-- start_monitoring, lines 254 to 303 of setup.py. On non-Windows it
first issues pkill -f scripts/watch_events.sh (failures swallowed). On
Windows it opens a console window through the start command when that is
available, else prints a warning and launches nothing. On Linux and
macOS it prefers screen, else tmux, else a bare background Popen with
output discarded; the NOTE advisory is printed exactly when no
multiplexer was used. Every branch falls through to return True. -/
def start_monitoring (os : OSType) (tools : Tools) : MonitorResult :=
  match os with
  | OSType.windows =>
    if tools.startCmd then
      { strategy := LaunchStrategy.windowsConsole, pkillIssued := false,
        sessions := [],
        popens := [["start", "bash.exe", "scripts/watch_events.sh"]],
        advisory := false, warning := false, result := true }
    else
      { strategy := LaunchStrategy.unstarted, pkillIssued := false,
        sessions := [], popens := [],
        advisory := false, warning := true, result := true }
  | _ =>
    if tools.screen then
      { strategy := LaunchStrategy.multiplexerScreen, pkillIssued := true,
        sessions :=
          [{ name := "event_monitor", cmd := ["./scripts/watch_events.sh"] },
           { name := "agent_monitor",
             cmd := ["watch", "-n", "10", "./scripts/agent_status.sh", "list"] }],
        popens := [], advisory := false, warning := false, result := true }
    else if tools.tmux then
      { strategy := LaunchStrategy.multiplexerTmux, pkillIssued := true,
        sessions :=
          [{ name := "event_monitor", cmd := ["./scripts/watch_events.sh"] },
           { name := "agent_monitor",
             cmd := ["watch -n 10 ./scripts/agent_status.sh list"] }],
        popens := [], advisory := false, warning := false, result := true }
    else
      { strategy := LaunchStrategy.detachedBackground, pkillIssued := true,
        sessions := [], popens := [["./scripts/watch_events.sh"]],
        advisory := true, warning := false, result := true }

/-- Split a character list at each space, like splitOn applied with a
single-space separator. -/
def splitWords : List Char → List (List Char)
  | [] => [[]]
  | c :: cs =>
    match splitWords cs with
    | [] => if c = ' ' then [[], []] else [[c]]
    | w :: ws => if c = ' ' then [] :: w :: ws else (c :: w) :: ws

/-- Polling interval of a session command: the argument that follows
watch -n in the words of the command (for screen the words are already
split; for tmux they sit inside one string and are split on spaces). -/
def pollInterval (cmd : List String) : Option Nat :=
  match (cmd.map (fun s => splitWords s.data)).flatten with
  | w1 :: w2 :: n :: _ =>
    if w1 = "watch".data ∧ w2 = "-n".data then decNumeral n else none
  | _ => none

/-- Outcome of one invocation of the report-heartbeat command inside the
loop body of heartbeat_thread: subprocess.run completed with some exit
code (its output and status are discarded), or the invocation raised. -/
inductive ReportOutcome
  | completed (exitCode : Int)
  | raised
deriving DecidableEq

/-- An observable action of the heartbeat loop: one attempt to run the
report command for the agent (with its outcome), or one sleep of the
given number of seconds. -/
inductive HbAction
  | reportAttempt (agentId : String) (outcome : ReportOutcome)
  | sleep (seconds : Nat)
deriving DecidableEq

/-- One iteration of the while True body of heartbeat_thread, lines 326
to 338 of setup.py: the report command is invoked inside try, a raise is
swallowed by the bare except with pass, and control always falls through
to time.sleep(60). -/
def heartbeatIter (agentId : String) (o : ReportOutcome) : List HbAction :=
  let afterTry :=
    match o with
    | ReportOutcome.completed _ => [HbAction.reportAttempt agentId o]
    | ReportOutcome.raised => [HbAction.reportAttempt agentId o]
  afterTry ++ [HbAction.sleep 60]

/-- The first n iterations of the heartbeat loop, where outcomes k is
the outcome of the report attempt at tick k. The loop condition is the
constant True, so every tick runs its iteration. -/
def heartbeatTrace (outcomes : Nat → ReportOutcome) (agentId : String) :
    Nat → List HbAction
  | 0 => []
  | n + 1 =>
    heartbeatTrace outcomes agentId n ++ heartbeatIter agentId (outcomes n)

/-- install_dependencies, lines 94 to 155 of setup.py: returns True
immediately when nothing is missing; otherwise the outcome of the
install attempt (package-manager detail abstracted as installOk). -/
def install_dependencies (missingDeps : List String) (installOk : Bool) :
    Bool :=
  if missingDeps.isEmpty then true else installOk

/-- The inputs main depends on: the platform, the available tools, the
dependency-check result, whether an attempted install succeeds, the
configured agent id, the signal-delivery oracle and the PID files of the
working directory. -/
structure SetupEnv where
  os : OSType
  tools : Tools
  missingDeps : List String
  installOk : Bool
  agentId : String
  killOk : Int → Bool
  store : FileStore

/-- What main returns and which supervision steps ran: none means the
early dependency exit skipped them. -/
structure MainResult where
  exitCode : Int
  monitor : Option MonitorResult
  heartbeat : Option StartResult

/-- main, lines 378 to 429 of setup.py: after the dependency check,
return 1 when dependencies are missing and install_dependencies failed;
otherwise run the rest of the sequence, including start_monitoring and
start_heartbeat whose return values the code ignores, and return 0. -/
def mainRun (env : SetupEnv) : MainResult :=
  if !env.missingDeps.isEmpty
      && !install_dependencies env.missingDeps env.installOk then
    { exitCode := 1, monitor := none, heartbeat := none }
  else
    let m := start_monitoring env.os env.tools
    let h := start_heartbeat env.killOk env.agentId env.store
    { exitCode := 0, monitor := some m, heartbeat := some h }

theorem heartbeatIter_eq (agentId : String) (o : ReportOutcome) :
    heartbeatIter agentId o =
      [HbAction.reportAttempt agentId o, HbAction.sleep 60] := by
  cases o <;> rfl

theorem heartbeatTrace_succ (outcomes : Nat → ReportOutcome)
    (agentId : String) (n : Nat) :
    heartbeatTrace outcomes agentId (n + 1) =
      heartbeatTrace outcomes agentId n ++
        [HbAction.reportAttempt agentId (outcomes n), HbAction.sleep 60] := by
  rw [heartbeatTrace, heartbeatIter_eq]

theorem heartbeatTrace_length (outcomes : Nat → ReportOutcome)
    (agentId : String) (n : Nat) :
    (heartbeatTrace outcomes agentId n).length = 2 * n := by
  induction n with
  | zero => rfl
  | succ n ih =>
    rw [heartbeatTrace_succ, List.length_append, ih, List.length_cons,
      List.length_cons, List.length_nil]
    omega

theorem reportAttempt_mem_heartbeatTrace (outcomes : Nat → ReportOutcome)
    (agentId : String) {k n : Nat} (h : k < n) :
    HbAction.reportAttempt agentId (outcomes k) ∈
      heartbeatTrace outcomes agentId n := by
  induction n with
  | zero => omega
  | succ n ih =>
    rw [heartbeatTrace_succ]
    rcases Nat.lt_succ_iff_lt_or_eq.mp h with h | rfl
    · exact List.mem_append_left _ (ih h)
    · exact List.mem_append_right _ (by simp)

theorem sleep_mem_heartbeatTrace_eq_60 (outcomes : Nat → ReportOutcome)
    (agentId : String) {s n : Nat}
    (h : HbAction.sleep s ∈ heartbeatTrace outcomes agentId n) : s = 60 := by
  induction n with
  | zero => simp [heartbeatTrace] at h
  | succ n ih =>
    rw [heartbeatTrace_succ] at h
    rcases List.mem_append.mp h with h | h
    · exact ih h
    · simp at h
      exact h

theorem heartbeatTrace_eq_flatten (outcomes : Nat → ReportOutcome)
    (agentId : String) (n : Nat) :
    heartbeatTrace outcomes agentId n =
      ((List.range n).map
        (fun k => [HbAction.reportAttempt agentId (outcomes k),
                   HbAction.sleep 60])).flatten := by
  induction n with
  | zero => rfl
  | succ n ih =>
    rw [heartbeatTrace_succ, ih, List.range_succ]
    simp

/-- Claim C5: for every number of consecutive failures of the
heartbeat-report command, the loop never stops: the report at tick k is
attempted whatever the earlier outcomes were (no retry cap), every sleep
in the trace is exactly 60 seconds (no backoff), and every tick up to
the horizon contributes its report attempt and its sleep. -/
theorem c5_heartbeat_retries_forever (outcomes : Nat → ReportOutcome)
    (agentId : String) (k m : Nat) :
    HbAction.reportAttempt agentId (outcomes k) ∈
      heartbeatTrace outcomes agentId (k + m + 1) ∧
    (∀ s : Nat, HbAction.sleep s ∈ heartbeatTrace outcomes agentId (k + m + 1) →
      s = 60) ∧
    (heartbeatTrace outcomes agentId (k + m + 1)).length = 2 * (k + m + 1) :=
  ⟨reportAttempt_mem_heartbeatTrace outcomes agentId (by omega),
   fun _ hs => sleep_mem_heartbeatTrace_eq_60 outcomes agentId hs,
   heartbeatTrace_length outcomes agentId (k + m + 1)⟩

/-- Claim C10: the heartbeat loop attempts its first liveness report
immediately when the task starts, before the first sleep: the trace is
the concatenation of per-tick blocks, each a report attempt followed by
the fixed 60-second sleep, and the head of any nonempty trace is the
report attempt of tick zero. -/
theorem c10_first_report_before_first_sleep (outcomes : Nat → ReportOutcome)
    (agentId : String) (n : Nat) :
    heartbeatTrace outcomes agentId n =
      ((List.range n).map
        (fun k => [HbAction.reportAttempt agentId (outcomes k),
                   HbAction.sleep 60])).flatten ∧
    (heartbeatTrace outcomes agentId (n + 1)).head? =
      some (HbAction.reportAttempt agentId (outcomes 0)) := by
  refine ⟨heartbeatTrace_eq_flatten outcomes agentId n, ?_⟩
  rw [heartbeatTrace_eq_flatten outcomes agentId (n + 1),
    List.range_succ_eq_map]
  simp

/-- Claim C1 is false on the code: in a working directory with no PID
file for agent7, start_heartbeat creates no PID record at all (the code
only cleans a pre-existing file and never writes one), not exactly one
record as the claim states. -/
theorem c1_counterexample :
    recordCount (start_heartbeat (fun _ => true) "agent7" emptyStore).store
      "agent7" ≠ 1 := by
  decide

/-- Claim C1 amended: when the working directory has no PID file for the
agent, start_heartbeat creates no PID record (zero records exist after),
a second start signals no PID and again writes nothing, and at no point
do two simultaneous records for that agent id exist (the count never
exceeds one). -/
theorem c1_amended_start_writes_no_record (killOk : Int → Bool)
    (agentId : String) (st : FileStore)
    (h : st (heartbeatPidFile agentId) = none) :
    recordCount (start_heartbeat killOk agentId st).store agentId = 0 ∧
    (start_heartbeat killOk agentId st).signaled = [] ∧
    recordCount (start_heartbeat killOk agentId
        (start_heartbeat killOk agentId st).store).store agentId = 0 ∧
    (start_heartbeat killOk agentId
        (start_heartbeat killOk agentId st).store).signaled = [] ∧
    recordCount (start_heartbeat killOk agentId st).store agentId ≤ 1 := by
  simp [start_heartbeat, terminate_and_clear, recordCount, h]

/-- Witness for claim C1 at the concrete input of the scenario: the
empty working directory and agent7. -/
theorem c1_witness :
    emptyStore (heartbeatPidFile "agent7") = none ∧
    (recordCount (start_heartbeat (fun _ => true) "agent7" emptyStore).store
        "agent7" = 0 ∧
      (start_heartbeat (fun _ => true) "agent7" emptyStore).signaled = [] ∧
      recordCount (start_heartbeat (fun _ => true) "agent7"
          (start_heartbeat (fun _ => true) "agent7" emptyStore).store).store
        "agent7" = 0 ∧
      (start_heartbeat (fun _ => true) "agent7"
          (start_heartbeat (fun _ => true) "agent7" emptyStore).store).signaled
        = [] ∧
      recordCount (start_heartbeat (fun _ => true) "agent7" emptyStore).store
        "agent7" ≤ 1) :=
  ⟨rfl, c1_amended_start_writes_no_record (fun _ => true) "agent7" emptyStore
    rfl⟩

/-- Claim C2 is false on the code at a PID file holding unparsable
content: for this concrete store the cleanup block returns with the
stale file of agent7 still present, while the claim states that after it
returns no stale PID file remains for that owner. -/
theorem c2_counterexample :
    (terminate_and_clear (fun _ => true) "agent7"
        (fun p => if p = ".heartbeat_agent7.pid" then some "not a pid"
          else none)).store
      (heartbeatPidFile "agent7") ≠ none := by
  decide

/-- Claim C2 amended: terminate_and_clear never raises into the caller;
with no prior record it is a pure no-op; and whenever the stored content
parses as a PID, after it returns no stale file remains for the owner
and that PID was signaled, even when the termination signal delivery
failed (killOk is arbitrary). Only a record whose content does not parse
is left behind. -/
theorem c2_amended_terminate_and_clear (killOk : Int → Bool)
    (agentId : String) (st : FileStore) :
    (terminate_and_clear killOk agentId st).raised = false ∧
    (st (heartbeatPidFile agentId) = none →
      (terminate_and_clear killOk agentId st).store = st ∧
      (terminate_and_clear killOk agentId st).signaled = []) ∧
    (∀ content pid, st (heartbeatPidFile agentId) = some content →
      parsePid content = some pid →
      (terminate_and_clear killOk agentId st).store
        (heartbeatPidFile agentId) = none ∧
      (terminate_and_clear killOk agentId st).signaled = [pid]) := by
  refine ⟨?_, ?_, ?_⟩
  · cases h : st (heartbeatPidFile agentId) with
    | none => simp [terminate_and_clear, h]
    | some content =>
      cases h2 : parsePid content with
      | none => simp [terminate_and_clear, h, h2]
      | some pid => simp [terminate_and_clear, h, h2]
  · intro h
    simp [terminate_and_clear, h]
  · intro content pid h1 h2
    simp [terminate_and_clear, h1, h2, FileStore.remove]

/-- Witness for claim C2 at a concrete input where signal delivery
fails (killOk is constantly false) and the stored content parses: the
file is removed and the recorded PID was signaled. -/
theorem c2_witness :
    (terminate_and_clear (fun _ => false) "agent9"
        (fun p => if p = ".heartbeat_agent9.pid" then some "12345"
          else none)).store
      (heartbeatPidFile "agent9") = none ∧
    (terminate_and_clear (fun _ => false) "agent9"
        (fun p => if p = ".heartbeat_agent9.pid" then some "12345"
          else none)).signaled = [(12345 : Int)] :=
  (c2_amended_terminate_and_clear (fun _ => false) "agent9"
      (fun p => if p = ".heartbeat_agent9.pid" then some "12345"
        else none)).2.2
    "12345" 12345 (by decide) (by decide)

/-- Claim C3 is false on the code: at this concrete store whose PID file
for agentX holds unparsable content, the cleanup does not proceed; the
stale file is still present after the cleanup block returns, while the
claim states its removal still proceeds. -/
theorem c3_counterexample :
    ¬ ((terminate_and_clear (fun _ => true) "agentX"
        (fun p => if p = ".heartbeat_agentX.pid" then some "garbage"
          else none)).store
      (heartbeatPidFile "agentX") = none) := by
  decide

/-- Claim C3 amended: when the PID file of the owner exists but holds
unparsable content, the parse failure never raises into the caller (the
outer bare except swallows it, as NotFound) and no PID is signaled, but
the subsequent cleanup does not proceed: the stale file remains with its
content intact. -/
theorem c3_amended_unparsable_skips_cleanup (killOk : Int → Bool)
    (agentId : String) (st : FileStore) (content : String)
    (h1 : st (heartbeatPidFile agentId) = some content)
    (h2 : parsePid content = none) :
    (terminate_and_clear killOk agentId st).raised = false ∧
    (terminate_and_clear killOk agentId st).signaled = [] ∧
    (terminate_and_clear killOk agentId st).store (heartbeatPidFile agentId)
      = some content := by
  simp [terminate_and_clear, h1, h2]

/-- Witness for claim C3 at a concrete store whose PID file for agentX
holds the unparsable content garbage. -/
theorem c3_witness :
    ((fun p => if p = ".heartbeat_agentX.pid" then some "garbage" else none) :
        FileStore) (heartbeatPidFile "agentX") = some "garbage" ∧
    parsePid "garbage" = none ∧
    ((terminate_and_clear (fun _ => true) "agentX"
        (fun p => if p = ".heartbeat_agentX.pid" then some "garbage"
          else none)).raised = false ∧
      (terminate_and_clear (fun _ => true) "agentX"
        (fun p => if p = ".heartbeat_agentX.pid" then some "garbage"
          else none)).signaled = [] ∧
      (terminate_and_clear (fun _ => true) "agentX"
        (fun p => if p = ".heartbeat_agentX.pid" then some "garbage"
          else none)).store (heartbeatPidFile "agentX") = some "garbage") :=
  ⟨by decide, by decide,
   c3_amended_unparsable_skips_cleanup (fun _ => true) "agentX"
     (fun p => if p = ".heartbeat_agentX.pid" then some "garbage" else none)
     "garbage" (by decide) (by decide)⟩

/-- Claim C4: on Unix-family platforms the launch strategy is a
deterministic function of tool availability: screen present picks the
screen multiplexer, else tmux present picks the tmux multiplexer, else
the detached-background strategy is picked. -/
theorem c4_strategy_selection (os : OSType) (tools : Tools)
    (h : os = OSType.linux ∨ os = OSType.macos) :
    (start_monitoring os tools).strategy =
      (if tools.screen then LaunchStrategy.multiplexerScreen
       else if tools.tmux then LaunchStrategy.multiplexerTmux
       else LaunchStrategy.detachedBackground) := by
  obtain ⟨s, t, w⟩ := tools
  rcases h with rfl | rfl <;> cases s <;> cases t <;> rfl

/-- Witness for claim C4 at a concrete Unix input: Linux with screen
absent and tmux present selects the tmux multiplexer strategy. -/
theorem c4_witness :
    (OSType.linux = OSType.linux ∨ OSType.linux = OSType.macos) ∧
    (start_monitoring OSType.linux
        { screen := false, tmux := true, startCmd := false }).strategy =
      (if (Tools.mk false true false).screen then
        LaunchStrategy.multiplexerScreen
       else if (Tools.mk false true false).tmux then
        LaunchStrategy.multiplexerTmux
       else LaunchStrategy.detachedBackground) :=
  ⟨Or.inl rfl,
   c4_strategy_selection OSType.linux ⟨false, true, false⟩ (Or.inl rfl)⟩

/-- Claim C6: on a Unix-family platform with neither screen nor tmux
installed, start_monitoring still launches the event watcher as a
detached background process (the bare Popen of the watcher script with
output discarded) and prints the advisory recommending a multiplexer,
on Linux and on macOS alike and whatever the Windows start tool says. -/
theorem c6_bare_background_fallback (w : Bool) :
    ((start_monitoring OSType.linux
        { screen := false, tmux := false, startCmd := w }).popens =
          [["./scripts/watch_events.sh"]] ∧
      (start_monitoring OSType.linux
        { screen := false, tmux := false, startCmd := w }).advisory = true ∧
      (start_monitoring OSType.linux
        { screen := false, tmux := false, startCmd := w }).strategy =
          LaunchStrategy.detachedBackground) ∧
    ((start_monitoring OSType.macos
        { screen := false, tmux := false, startCmd := w }).popens =
          [["./scripts/watch_events.sh"]] ∧
      (start_monitoring OSType.macos
        { screen := false, tmux := false, startCmd := w }).advisory = true ∧
      (start_monitoring OSType.macos
        { screen := false, tmux := false, startCmd := w }).strategy =
          LaunchStrategy.detachedBackground) := by
  cases w <;> exact ⟨⟨by decide, by decide, by decide⟩,
    ⟨by decide, by decide, by decide⟩⟩

/-- Claim C7: when a multiplexer strategy is selected on a Unix-family
platform, exactly two independently named sessions are created, the
event watcher script running under event_monitor and the status lister
under agent_monitor, and the status lister is a fixed polling command
whose polling interval is 10 seconds. The event watcher command is the
same in both multiplexer branches, so it is pinned; only the status
lister command varies in shape (argv words under screen, one shell word
under tmux). -/
theorem c7_two_sessions (os : OSType) (tools : Tools)
    (hos : os = OSType.linux ∨ os = OSType.macos)
    (hmux : (start_monitoring os tools).strategy =
        LaunchStrategy.multiplexerScreen ∨
      (start_monitoring os tools).strategy =
        LaunchStrategy.multiplexerTmux) :
    ∃ stCmd,
      (start_monitoring os tools).sessions =
        [{ name := "event_monitor", cmd := ["./scripts/watch_events.sh"] },
         { name := "agent_monitor", cmd := stCmd }] ∧
      ("event_monitor" : String) ≠ "agent_monitor" ∧
      pollInterval stCmd = some 10 := by
  obtain ⟨s, t, w⟩ := tools
  rcases hos with rfl | rfl <;> cases s <;> cases t <;> cases w <;>
    first
      | exact ⟨["watch", "-n", "10", "./scripts/agent_status.sh", "list"],
          by decide, by decide, by decide⟩
      | exact ⟨["watch -n 10 ./scripts/agent_status.sh list"],
          by decide, by decide, by decide⟩
      | (rcases hmux with h | h <;> exact absurd h (by decide))

/-- Witness for claim C7 at a concrete input: macOS with screen present
selects the screen multiplexer and creates the two sessions, the event
watcher script under event_monitor. -/
theorem c7_witness :
    (OSType.macos = OSType.linux ∨ OSType.macos = OSType.macos) ∧
    ((start_monitoring OSType.macos
        { screen := true, tmux := false, startCmd := false }).strategy =
          LaunchStrategy.multiplexerScreen ∨
      (start_monitoring OSType.macos
        { screen := true, tmux := false, startCmd := false }).strategy =
          LaunchStrategy.multiplexerTmux) ∧
    (∃ stCmd,
      (start_monitoring OSType.macos
          { screen := true, tmux := false, startCmd := false }).sessions =
        [{ name := "event_monitor", cmd := ["./scripts/watch_events.sh"] },
         { name := "agent_monitor", cmd := stCmd }] ∧
      ("event_monitor" : String) ≠ "agent_monitor" ∧
      pollInterval stCmd = some 10) :=
  ⟨Or.inr rfl, Or.inl (by decide),
   c7_two_sessions OSType.macos ⟨true, false, false⟩ (Or.inr rfl)
     (Or.inl (by decide))⟩

/-- Claim C8: only a missing-dependency failure terminates the setup
flow: main exits 1 exactly when dependencies are missing and
install_dependencies failed, exits 0 otherwise with both supervision
steps having run, and its exit code depends only on the dependency
inputs, never on anything the supervision core (monitor launch,
heartbeat start) does. -/
theorem c8_only_dependency_failure_aborts (env env2 : SetupEnv) :
    ((mainRun env).exitCode = 1 ∨ (mainRun env).exitCode = 0) ∧
    ((mainRun env).exitCode = 1 ↔
      env.missingDeps ≠ [] ∧
      install_dependencies env.missingDeps env.installOk = false) ∧
    ((mainRun env).exitCode = 0 →
      (mainRun env).monitor = some (start_monitoring env.os env.tools) ∧
      (mainRun env).heartbeat =
        some (start_heartbeat env.killOk env.agentId env.store)) ∧
    (env.missingDeps = env2.missingDeps → env.installOk = env2.installOk →
      (mainRun env).exitCode = (mainRun env2).exitCode) := by
  obtain ⟨os, tools, md, iok, aid, kok, st⟩ := env
  obtain ⟨os2, tools2, md2, iok2, aid2, kok2, st2⟩ := env2
  cases md <;> cases iok <;> cases md2 <;> cases iok2 <;>
    simp [mainRun, install_dependencies]

/-- Claim C9: start_monitoring returns True in every branch, including
the Windows branch with no window-spawning facility, where only the
warning is printed and no session or background process is launched, so
a caller cannot tell successful monitoring from absent monitoring by the
return value. -/
theorem c9_start_monitoring_always_true (os : OSType) (tools : Tools)
    (sc tm : Bool) :
    (start_monitoring os tools).result = true ∧
    (start_monitoring OSType.windows
      { screen := sc, tmux := tm, startCmd := false }).warning = true ∧
    (start_monitoring OSType.windows
      { screen := sc, tmux := tm, startCmd := false }).sessions = [] ∧
    (start_monitoring OSType.windows
      { screen := sc, tmux := tm, startCmd := false }).popens = [] ∧
    (start_monitoring OSType.windows
      { screen := sc, tmux := tm, startCmd := false }).result = true := by
  obtain ⟨s, t, w⟩ := tools
  cases os <;> cases s <;> cases t <;> cases w <;> cases sc <;> cases tm <;>
    exact ⟨by decide, by decide, by decide, by decide, by decide⟩

end Nexus
